import Mathlib

/-!
Verification of the DetectorX alert-dispatch pipeline.

This file gives a shallow embedding of the orchestration logic of the
repository (detector.py, notifier.py, gemini_analyzer.py, app.py, run.py)
and proves / refutes the frozen specification claims about it.

External effects (filesystem, HTTP, the YOLO model, the Gemini API) are
modelled by explicit environment values recording the outcome of each
effectful call; the control flow around those calls is translated
branch-for-branch from the Python source.  Timestamps are modelled as
integers (an arbitrary instant on the real time line is order-isomorphic
to one on ℤ for every comparison the code makes), Python dictionaries
keyed by label as functions `String → Option ℤ`, and detection
confidences as rationals.
-/

namespace DetectorX

/- ## Python string primitives used by the source -/

/-- `str.strip()` on the character list: drop whitespace on both ends. -/
def pyStripList (l : List Char) : List Char :=
  ((l.dropWhile Char.isWhitespace).reverse.dropWhile Char.isWhitespace).reverse

/-- Python `str.strip()`. -/
def pyStrip (s : String) : String := ⟨pyStripList s.data⟩

/-- Python `str.lower()` (ASCII, which covers every string the app compares). -/
def pyLower (s : String) : String := ⟨s.data.map Char.toLower⟩

/-- Python `str.capitalize()`: first character upper-cased, rest lower-cased. -/
def pyCapitalize (s : String) : String :=
  match s.data with
  | [] => ""
  | c :: cs => ⟨c.toUpper :: cs.map Char.toLower⟩

/-- Two-digit zero-padded rendering of a value below 100. -/
def pad2 (n : Nat) : String := if n < 10 then "0" ++ toString n else toString n

/-- Round-half-to-even on rationals, mirroring Python float formatting. -/
def roundHalfEven (q : ℚ) : Int :=
  let f := ⌊q⌋
  let r := q - f
  if r < 1/2 then f
  else if 1/2 < r then f + 1
  else if f % 2 = 0 then f else f + 1

/-- Python `f"{x:.2f}"` on the rational idealisation of the float `x`. -/
def formatConf2 (q : ℚ) : String :=
  let n := roundHalfEven (q * 100)
  let m := n.natAbs
  let s := toString (m / 100) ++ "." ++ pad2 (m % 100)
  if n < 0 then "-" ++ s else s

/- ## notifier.py: message composition -/

/-- The `message_details` dictionary handed to the notifier functions
(`app.py` lines 165-172, `run.py` lines 168-175).  A `none` field models a
missing dictionary key, read back with `dict.get(key, default)`. -/
structure MessageDetails where
  detection_type : Option String
  location : Option String
  source_info : Option String
  confidence : Option ℚ
  timestamp : Option String
  gemini_analysis : Option String

/-- The fixed sentinel list of `format_rich_notification_message`
(notifier.py lines 86-89), verbatim. -/
def geminiSentinels : List String :=
  ["analisis gemini tidak tersedia.",
   "file gambar tidak ditemukan untuk analisis.",
   "analisis gemini tidak menghasilkan output yang diharapkan.",
   "analisis gemini diblokir."]

/-- The guard of step 5 of `format_rich_notification_message`
(notifier.py line 85): Python `gemini_text and
gemini_text.strip().lower() not in [...]`; a missing key or an empty
string is falsy. -/
def geminiSectionShown (gemini_text : Option String) : Bool :=
  match gemini_text with
  | none => false
  | some t => (!(t == "")) && !(geminiSentinels.contains (pyLower (pyStrip t)))

/-- `format_rich_notification_message` (notifier.py lines 55-94),
translated line by line; the three decorated literals are the exact
byte sequences of the source file. -/
def format_rich_notification_message (message_details : MessageDetails)
    (imgur_link_for_message : Option String) : String :=
  let det_type := pyCapitalize (message_details.detection_type.getD "Bahaya")
  let location := message_details.location.getD "Lokasi Tidak Diketahui"
  let source_info := message_details.source_info.getD "sumber tidak diketahui"
  let confidence := message_details.confidence.getD 0
  let timestamp := message_details.timestamp.getD "Waktu Tidak Tercatat"
  let gemini_text := message_details.gemini_analysis
  let title_line :=
    "üî•üö® LIVE ALERT! Terdeteksi "
      ++ det_type ++ " di " ++ location ++ " dari " ++ source_info
  let confidence_text := "Kepercayaan: " ++ formatConf2 confidence
  let timestamp_text := "Waktu Deteksi: " ++ timestamp
  let detection_details_text := confidence_text ++ "\n" ++ timestamp_text
  let full_message0 := title_line ++ "\n\n" ++ detection_details_text
  let full_message1 :=
    match imgur_link_for_message with
    | some link =>
        full_message0 ++ "\n\nüñºÔ∏è Frame Deteksi: " ++ link
    | none => full_message0
  let gemini_header :=
    "\n\n‚Äî üß† Analisis & Saran Gemini AI ‚Äî"
  let full_message2 :=
    if geminiSectionShown gemini_text then
      full_message1 ++ gemini_header ++ "\n" ++ pyStrip (gemini_text.getD "")
    else full_message1
  pyStrip full_message2

/- ## gemini_analyzer.py: the AI-analysis collaborator -/

/-- Outcome of one call to the Gemini collaborator, covering every return
path of `analyze_image_with_gemini` (gemini_analyzer.py lines 47-102).
`success` carries the non-empty joined candidate text; every other
constructor is a non-success outcome. -/
inductive GeminiOutcome
  | notConfigured
  | fileMissing (path : String)
  | success (text : String)
  | blocked (reason msg : String)
  | noOutput
  | exceptionDuring (err : String)

/-- `analyze_image_with_gemini` return value per outcome, with the exact
strings of gemini_analyzer.py lines 61, 66, 86, 93, 98 and 102. -/
def analyze_image_with_gemini : GeminiOutcome → String
  | .notConfigured => "Analisis Gemini tidak tersedia."
  | .fileMissing path => "Analisis Gagal: File gambar tidak ditemukan di " ++ path
  | .success text => pyStrip text
  | .blocked reason msg => "Analisis Gemini AI diblokir: " ++ reason ++ ". " ++ msg
  | .noOutput => "Analisis Gemini AI tidak menghasilkan output yang diharapkan."
  | .exceptionDuring err => "Error saat berkomunikasi dengan Gemini AI: " ++ err

/- ## detector.py: YoloDetector.detect -/

/-- One raw box of `results.boxes` from `model.predict`
(detector.py lines 108-124): class id, confidence, pixel box. -/
structure RawBox where
  cls : Nat
  conf : ℚ
  xyxy : List Int

/-- One entry of the `detected_objects_list` built by `detect`
(detector.py lines 120-124). -/
structure Det where
  label : String
  confidence : ℚ
  bbox : List Int
deriving DecidableEq, Repr

/-- A numpy frame, abstracted to its shape plus an opaque content id;
only the shape drives the control flow of `detect`, and content identity
is needed only to state that the unprocessable paths hand back the very
input frame. -/
structure PyFrame where
  shape : List Nat
  pix : Nat
deriving DecidableEq, Repr

/-- `cv2.cvtColor(•, cv2.COLOR_GRAY2BGR)` on an `(h, w)` frame. -/
def cvtGray2BGR (f : PyFrame) : PyFrame := ⟨f.shape ++ [3], f.pix⟩

/-- `cv2.cvtColor(•, cv2.COLOR_BGRA2BGR)` on an `(h, w, 4)` frame. -/
def cvtBGRA2BGR (f : PyFrame) : PyFrame := ⟨f.shape.take 2 ++ [3], f.pix⟩

/-- `self.class_names.get(class_id_raw, f"UnknownID_{class_id_raw}")`
(detector.py line 118). -/
def class_name_of (class_names : List (Nat × String)) (class_id_raw : Nat) : String :=
  match class_names.lookup class_id_raw with
  | some n => n
  | none => "UnknownID_" ++ toString class_id_raw

/-- Outcomes of the opaque model call inside `detect`:
`results_list` is the value returned by `model.predict` (each element
contributing its `.boxes`), `plotResult` the frame `results.plot()`
returns (`none` models a `None` result, detector.py lines 96-102). -/
structure PredictEnv where
  results_list : List (List RawBox)
  plotResult : Option PyFrame

/-- The filtering loop of detector.py lines 115-124: keep a box iff the
lower-cased class name is "fire" or "smoke", append the verbatim
(`label_raw`, not lower-cased) dictionary entry. -/
def detectFilter (class_names : List (Nat × String)) (boxes : List RawBox) : List Det :=
  boxes.foldl
    (fun acc box =>
      let label_raw := class_name_of class_names box.cls
      if pyLower label_raw == "fire" || pyLower label_raw == "smoke" then
        acc ++ [{ label := label_raw, confidence := box.conf, bbox := box.xyxy }]
      else acc)
    []

/-- `YoloDetector.detect` (detector.py lines 35-136), branch for branch:
model not loaded → `([], frame_input)`; 2-dim frame → GRAY2BGR; 3-dim
4-channel → BGRA2BGR; 3-dim 3-channel → unchanged; any other shape →
`([], frame_input)`; then the redundant 3-channel re-check of line 72,
the empty-`results_list` early return of line 90, the `results.plot()`
shape guard of lines 96-102, and the fire/smoke filter. -/
def detect (modelLoaded : Bool) (class_names : List (Nat × String))
    (frame_input : PyFrame) (env : PredictEnv) : List Det × PyFrame :=
  if !modelLoaded then ([], frame_input)
  else
    let processedO : Option PyFrame :=
      match frame_input.shape with
      | [_, _] => some (cvtGray2BGR frame_input)
      | [_, _, c] =>
          if c == 4 then some (cvtBGRA2BGR frame_input)
          else if c == 3 then some frame_input
          else none
      | _ => none
    match processedO with
    | none => ([], frame_input)
    | some processed =>
        if !(match processed.shape with | [_, _, 3] => true | _ => false) then
          ([], frame_input)
        else
          match env.results_list with
          | [] => ([], processed)
          | boxes :: _ =>
              let annotated :=
                match env.plotResult with
                | some p => if p.shape == processed.shape then p else processed
                | none => processed
              (detectFilter class_names boxes, annotated)

/-- Shapes `detect` can normalise for inference: grayscale `(h, w)`,
BGR `(h, w, 3)`, BGRA `(h, w, 4)`. -/
def supportedShape : List Nat → Bool
  | [_, _] => true
  | [_, _, c] => c == 3 || c == 4
  | _ => false

/- ## Cooldown tracker (app.py lines 61-67) -/

/-- The per-label last-alert-time dictionary
(`st.session_state.last_notification_time` in app.py,
`last_notification_times_cli` in run.py). -/
def LastTimes : Type := String → Option ℤ

/-- `can_send_notification` (app.py lines 61-64):
`current_time - last_notification_time.get(detection_type, 0) > cooldown_seconds`. -/
def can_send_notification (last_notification_time : LastTimes)
    (detection_type : String) (cooldown_seconds current_time : ℤ) : Bool :=
  decide (current_time - ((last_notification_time detection_type).getD 0) > cooldown_seconds)

/-- `update_notification_time` (app.py lines 66-67):
`last_notification_time[detection_type] = time.time()`. -/
def update_notification_time (last_notification_time : LastTimes)
    (detection_type : String) (now : ℤ) : LastTimes :=
  fun l => if l = detection_type then some now else last_notification_time l

/- ## attempt_remove_temp_file (app.py lines 69-86, run.py lines 52-69) -/

/-- Outcome of one `os.remove` call. -/
inductive RmOutcome
  | ok
  | permErr
  | otherErr
deriving DecidableEq, Repr

/-- Environment of one `attempt_remove_temp_file` call: whether the path
argument is truthy, whether `os.path.exists` holds, and the outcome of
the i-th `os.remove` attempt. -/
structure RmEnv where
  path_given : Bool
  file_present : Bool
  outcomes : Nat → RmOutcome

/-- Result of `attempt_remove_temp_file`: how many `os.remove` calls were
made and whether one of them succeeded. -/
structure RmResult where
  attempts : Nat
  removed : Bool
deriving DecidableEq, Repr

/-- The retry loop of `attempt_remove_temp_file` (app.py lines 73-86):
`idx` attempts already made, `remaining = max_retries - idx` iterations
left.  Success returns; `PermissionError` increments and retries;
any other exception logs and returns. -/
def removeLoopAux (outcomes : Nat → RmOutcome) : Nat → Nat → RmResult
  | idx, 0 => ⟨idx, false⟩
  | idx, remaining + 1 =>
      match outcomes idx with
      | .ok => ⟨idx + 1, true⟩
      | .permErr => removeLoopAux outcomes (idx + 1) remaining
      | .otherErr => ⟨idx + 1, false⟩

/-- `attempt_remove_temp_file` (app.py lines 69-86; run.py lines 52-69 is
the identical CLI copy): skip when the path is falsy or the file is
absent, else run the bounded retry loop. -/
def attempt_remove_temp_file (env : RmEnv) (max_retries : Nat) : RmResult :=
  if !env.path_given || !env.file_present then ⟨0, false⟩
  else removeLoopAux env.outcomes 0 max_retries

/- ## notifier.py: the two channel sends -/

/-- Outcome of one `requests.post` / `requests.get` call:
success, `requests.exceptions.RequestException`, or any other exception. -/
inductive PostOutcome
  | ok
  | reqErr
  | otherErr
deriving DecidableEq, Repr

/-- Environment of one `send_telegram_notification` call
(notifier.py lines 97-159). -/
structure TgEnv where
  token_and_chat : Bool
  image_path : Option String
  file_present : Bool
  imgur_link : Option String
  photo_post : PostOutcome
  text_post : PostOutcome
  fallback_post : PostOutcome

/-- `send_telegram_notification` (notifier.py lines 97-159): missing
credentials → `false`; with an existing image file, upload to Imgur (its
link goes into the caption), then `sendPhoto`; otherwise `sendMessage`;
on a `RequestException` of either primary attempt, one text-only
fallback `sendMessage`; any failure path returns `false`, nothing
propagates an exception. -/
def send_telegram_notification (message_details : MessageDetails) (env : TgEnv) : Bool :=
  if !env.token_and_chat then false
  else
    let hasImage := env.image_path.isSome && env.file_present
    let link := if hasImage then env.imgur_link else none
    let _full_caption_text := format_rich_notification_message message_details link
    let primary := if hasImage then env.photo_post else env.text_post
    match primary with
    | .ok => true
    | .reqErr => match env.fallback_post with | .ok => true | _ => false
    | .otherErr => false

/-- Environment of one `send_whatsapp_notification` call
(notifier.py lines 161-207). -/
structure WaEnv where
  api_key_and_number : Bool
  image_path : Option String
  file_present : Bool
  imgur_link : Option String
  get_post : PostOutcome

/-- `send_whatsapp_notification` (notifier.py lines 161-207): missing
CallMeBot credentials → `false`; best-effort Imgur upload for the link;
one `requests.get` to CallMeBot; every exception path returns `false`. -/
def send_whatsapp_notification (message_details : MessageDetails) (env : WaEnv) : Bool :=
  if !env.api_key_and_number then false
  else
    let hasFile := env.image_path.isSome && env.file_present
    let link := if hasFile then env.imgur_link else none
    let base := format_rich_notification_message message_details link
    let _full_text_message_wa :=
      if link.isNone && hasFile then
        base ++ "\n\n(Info: Gagal mengunggah gambar deteksi ke Imgur untuk pratinjau WhatsApp.)"
      else if env.image_path.isSome && !env.file_present then
        base ++ "\n\n(Info: File gambar deteksi tidak tersedia untuk notifikasi ini.)"
      else base
    match env.get_post with
    | .ok => true
    | _ => false

/- ## app.py: the per-detection dispatch of process_frame_and_notify -/

/-- Configuration read from the Streamlit session by
`process_frame_and_notify` (app.py lines 88-93 and 135-199). -/
structure AppCfg where
  notif_cooldown : ℤ
  enable_telegram : Bool
  enable_whatsapp : Bool
  whatsapp_configured : Bool
  gemini_available : Bool
  analyze_with_gemini : Bool

/-- Outcome of step 1 (persisting the annotated frame, app.py lines
145-149): `ok` when `PILImage.fromarray` / `NamedTemporaryFile` / `save`
all succeed and the temp path is captured; `failed` when one of them
raises, in which case `temp_annotated_img_path` is still `None`. -/
inductive PersistOutcome
  | ok
  | failed
deriving DecidableEq, Repr

/-- Per-dispatch effect outcomes for one qualifying detection in
`process_frame_and_notify`: the persistence outcome, whether some later
statement of the `try` block (after the analysis block, before the
channel sends, e.g. a UI call) raises unexpectedly, the analyzer
outcome, and the two `time.time()` readings (gate check, line 62, and
gate record, line 67). -/
structure DispatchEnv where
  persist : PersistOutcome
  laterRaise : Bool
  analysisOutcome : GeminiOutcome
  nowCheck : ℤ
  nowRecord : ℤ

/-- Observable events of processing one detection: whether the cooldown
gate was consulted and passed, whether the analyzer, Telegram and
WhatsApp were invoked, whether the gate was recorded as fired, and
whether the `finally` block invoked temp-file removal with a captured
path. -/
structure DispatchResult where
  gateChecked : Bool
  gatePassed : Bool
  analysisInvoked : Bool
  tgInvoked : Bool
  waInvoked : Bool
  gateRecorded : Bool
  removalInvoked : Bool
deriving DecidableEq, Repr

/-- The per-detection body of `process_frame_and_notify`
(app.py lines 122-199): lower-case the label; only `fire`/`smoke` reach
the (short-circuited) cooldown check of line 135; inside the `try`,
persistence failure raises before the path is captured so nothing else
runs and the `finally` skips removal; otherwise Gemini is invoked iff
available and enabled, the two sends run iff enabled (their boolean
results are ignored), and `update_notification_time` runs last
(line 182).  An unexpected later exception is caught at line 184 and
skips both sends and the gate update, but not the removal. -/
def processDetApp (cfg : AppCfg) (last_notification_time : LastTimes)
    (det : Det) (env : DispatchEnv) : LastTimes × DispatchResult :=
  let label := pyLower det.label
  let qualifying := label == "fire" || label == "smoke"
  if qualifying &&
      can_send_notification last_notification_time label cfg.notif_cooldown env.nowCheck then
    match env.persist with
    | .failed =>
        (last_notification_time,
         { gateChecked := true, gatePassed := true, analysisInvoked := false,
           tgInvoked := false, waInvoked := false, gateRecorded := false,
           removalInvoked := false })
    | .ok =>
        let analysisInvoked := cfg.gemini_available && cfg.analyze_with_gemini
        if env.laterRaise then
          (last_notification_time,
           { gateChecked := true, gatePassed := true, analysisInvoked,
             tgInvoked := false, waInvoked := false, gateRecorded := false,
             removalInvoked := true })
        else
          (update_notification_time last_notification_time label env.nowRecord,
           { gateChecked := true, gatePassed := true, analysisInvoked,
             tgInvoked := cfg.enable_telegram,
             waInvoked := cfg.enable_whatsapp && cfg.whatsapp_configured,
             gateRecorded := true, removalInvoked := true })
  else
    (last_notification_time,
     { gateChecked := qualifying, gatePassed := false, analysisInvoked := false,
       tgInvoked := false, waInvoked := false, gateRecorded := false,
       removalInvoked := false })

/- ## run.py: the per-detection dispatch of process_video_source_cli -/

/-- Configuration of the CLI loop (run.py lines 71-77). -/
structure CliCfg where
  cooldown : ℤ
  enable_telegram : Bool
  enable_whatsapp : Bool
  gemini_on : Bool

/-- One detection event reaching the CLI notification loop
(run.py lines 138-200): the already lower-cased label, the
`current_event_time` reading of line 142, and the dispatch effect
outcomes. -/
structure CliEvent where
  label : String
  time : ℤ
  persist : PersistOutcome
  laterRaise : Bool

/-- The per-detection body of `process_video_source_cli`
(run.py lines 138-200): the gate is consulted for every detection
(line 143, same strict comparison with default 0); on pass, the dispatch
runs exactly like the app variant except that the gate records
`current_event_time` — the dispatch start time — at line 185. -/
def stepCli (cfg : CliCfg) (last_notification_times_cli : LastTimes)
    (e : CliEvent) : LastTimes × DispatchResult :=
  if can_send_notification last_notification_times_cli e.label cfg.cooldown e.time then
    match e.persist with
    | .failed =>
        (last_notification_times_cli,
         { gateChecked := true, gatePassed := true, analysisInvoked := false,
           tgInvoked := false, waInvoked := false, gateRecorded := false,
           removalInvoked := false })
    | .ok =>
        if e.laterRaise then
          (last_notification_times_cli,
           { gateChecked := true, gatePassed := true, analysisInvoked := cfg.gemini_on,
             tgInvoked := false, waInvoked := false, gateRecorded := false,
             removalInvoked := true })
        else
          (update_notification_time last_notification_times_cli e.label e.time,
           { gateChecked := true, gatePassed := true, analysisInvoked := cfg.gemini_on,
             tgInvoked := cfg.enable_telegram, waInvoked := cfg.enable_whatsapp,
             gateRecorded := true, removalInvoked := true })
  else
    (last_notification_times_cli,
     { gateChecked := true, gatePassed := false, analysisInvoked := false,
       tgInvoked := false, waInvoked := false, gateRecorded := false,
       removalInvoked := false })

/-- Folding the CLI dispatch over a sequence of detection events,
threading the `last_notification_times_cli` dictionary. -/
def runCli (cfg : CliCfg) (st : LastTimes) (events : List CliEvent) : LastTimes :=
  events.foldl (fun s e => (stepCli cfg s e).1) st

/-- Statement helper: a string has neither leading nor trailing
whitespace. -/
def noEdgeWs (s : String) : Bool :=
  (match s.data with | [] => true | c :: _ => !c.isWhitespace)
  && (match s.data.reverse with | [] => true | c :: _ => !c.isWhitespace)

/- # Theorems -/

/- ## Shared helper lemmas -/

theorem dropWhile_head_false {p : Char → Bool} {l : List Char} {c : Char} {t : List Char}
    (h : l.dropWhile p = c :: t) : p c = false := by
  induction l with
  | nil => simp at h
  | cons a as ih =>
    rw [List.dropWhile_cons] at h
    by_cases hp : p a
    · rw [if_pos hp] at h; exact ih h
    · rw [if_neg hp] at h
      cases h
      simpa using hp

theorem noEdgeWs_pyStrip (s : String) : noEdgeWs (pyStrip s) = true := by
  have hdata : (pyStrip s).data = pyStripList s.data := rfl
  unfold noEdgeWs
  rw [hdata]
  unfold pyStripList
  set r := s.data.dropWhile Char.isWhitespace with hr
  set r2 := r.reverse.dropWhile Char.isWhitespace with hr2
  rw [List.reverse_reverse]
  apply Bool.and_eq_true_iff.mpr
  constructor
  · -- leading character: the last element of r2 is the first of r, not whitespace
    cases h2 : r2.reverse with
    | nil => rfl
    | cons c cs =>
      have hne : r2 ≠ [] := by
        intro hnil
        rw [hnil] at h2
        simp at h2
      have hlast : r2.getLast? = r.head? := by
        obtain ⟨u, hu⟩ : r2 <:+ r.reverse := by
          rw [hr2]; exact List.dropWhile_suffix _
        calc r2.getLast? = (u ++ r2).getLast? :=
              (List.getLast?_append_of_ne_nil u hne).symm
          _ = r.reverse.getLast? := by rw [hu]
          _ = r.head? := by
              rw [← List.head?_reverse, List.reverse_reverse]
      have hhead : r2.reverse.head? = r2.getLast? := List.head?_reverse r2
      rw [h2] at hhead
      cases hrr : r with
      | nil =>
        rw [hrr] at hlast
        simp at hlast
        rw [hlast] at hhead
        simp at hhead
      | cons d ds =>
        have hd : Char.isWhitespace d = false := dropWhile_head_false hrr.symm.symm
        rw [hrr] at hlast
        simp at hlast
        rw [hlast] at hhead
        simp at hhead
        rw [← hhead] at hd
        simp [hd]
  · -- trailing character: the head of r2, not whitespace
    cases h2 : r2 with
    | nil => rfl
    | cons c cs =>
      have := dropWhile_head_false (p := Char.isWhitespace) (l := r.reverse) (by rw [← hr2, h2])
      simp [this]

theorem formatConf2_zero : formatConf2 0 = "0.00" := by
  norm_num [formatConf2, roundHalfEven]
  decide

/- ## C3 -/

set_option maxRecDepth 4000 in
/-- C3: the claim says every non-success string `analyze_image_with_gemini`
can return is omitted from the composed message.  In the code only the
"not configured" sentinel is filtered: the file-missing, blocked,
no-output and exception return strings do not match any entry of the
notifier's sentinel list (the list says "analisis gemini diblokir." /
"analisis gemini tidak menghasilkan output yang diharapkan." /
"file gambar tidak ditemukan untuk analisis." while the analyzer emits
"Analisis Gemini AI diblokir: ..." / "Analisis Gemini AI tidak
menghasilkan output yang diharapkan." / "Analisis Gagal: File gambar
tidak ditemukan di ..."), so those error strings appear under the
analysis section.  This theorem evaluates the code at the failing
inputs, including the full composed message for the no-output case. -/
theorem gemini_error_strings_leak_into_message :
    geminiSectionShown (some (analyze_image_with_gemini .notConfigured)) = false
    ∧ geminiSectionShown (some (analyze_image_with_gemini .noOutput)) = true
    ∧ geminiSectionShown
        (some (analyze_image_with_gemini (.blocked "SAFETY" "Tidak ada pesan detail."))) = true
    ∧ geminiSectionShown
        (some (analyze_image_with_gemini (.exceptionDuring "timeout"))) = true
    ∧ geminiSectionShown
        (some (analyze_image_with_gemini (.fileMissing "/tmp/det_annotated_x.jpg"))) = true
    ∧ format_rich_notification_message
        ⟨some "Fire", some "X", some "Y", none, some "T",
          some (analyze_image_with_gemini .noOutput)⟩ none =
      "üî•üö® LIVE ALERT! Terdeteksi Fire di X dari Y\n\nKepercayaan: 0.00\nWaktu Deteksi: T\n\n‚Äî üß† Analisis & Saran Gemini AI ‚Äî\nAnalisis Gemini AI tidak menghasilkan output yang diharapkan." := by
  refine ⟨by decide, by decide, by decide, by decide, by decide, ?_⟩
  simp only [format_rich_notification_message, Option.getD_none, Option.getD_some]
  rw [formatConf2_zero]
  decide

/- ## C10 -/

set_option maxRecDepth 4000 in
/-- C10: `format_rich_notification_message` is total on missing fields,
substituting the fixed defaults "Bahaya", "Lokasi Tidak Diketahui",
"sumber tidak diketahui", 0.0 and "Waktu Tidak Tercatat" for an absent
`detection_type` / `location` / `source_info` / `confidence` /
`timestamp`, and the returned message never has leading or trailing
whitespace.  The final conjunct evaluates the all-defaults message. -/
theorem format_message_defaults_and_trim :
    (∀ b c q t g l, format_rich_notification_message ⟨none, b, c, q, t, g⟩ l =
        format_rich_notification_message ⟨some "Bahaya", b, c, q, t, g⟩ l)
    ∧ (∀ a c q t g l, format_rich_notification_message ⟨a, none, c, q, t, g⟩ l =
        format_rich_notification_message ⟨a, some "Lokasi Tidak Diketahui", c, q, t, g⟩ l)
    ∧ (∀ a b q t g l, format_rich_notification_message ⟨a, b, none, q, t, g⟩ l =
        format_rich_notification_message ⟨a, b, some "sumber tidak diketahui", q, t, g⟩ l)
    ∧ (∀ a b c t g l, format_rich_notification_message ⟨a, b, c, none, t, g⟩ l =
        format_rich_notification_message ⟨a, b, c, some 0, t, g⟩ l)
    ∧ (∀ a b c q g l, format_rich_notification_message ⟨a, b, c, q, none, g⟩ l =
        format_rich_notification_message ⟨a, b, c, q, some "Waktu Tidak Tercatat", g⟩ l)
    ∧ (∀ md l, noEdgeWs (format_rich_notification_message md l) = true)
    ∧ format_rich_notification_message ⟨none, none, none, none, none, none⟩ none =
      "üî•üö® LIVE ALERT! Terdeteksi Bahaya di Lokasi Tidak Diketahui dari sumber tidak diketahui\n\nKepercayaan: 0.00\nWaktu Deteksi: Waktu Tidak Tercatat" := by
  refine ⟨fun b c q t g l => rfl, fun a c q t g l => rfl, fun a b q t g l => rfl,
    fun a b c t g l => rfl, fun a b c q g l => rfl,
    fun md l => noEdgeWs_pyStrip _, ?_⟩
  simp only [format_rich_notification_message, Option.getD_none, Option.getD_some]
  rw [formatConf2_zero]
  decide

/- ## C1 -/

/-- C1 counterexample: a qualifying `fire` detection passes the gate, the
persistence step fails, and contrary to the claim the cooldown gate is
NOT marked fired (while indeed no channel is contacted). -/
theorem persist_failure_gate_not_fired_cex :
    (processDetApp ⟨10, true, true, true, true, true⟩ (fun _ => none)
        ⟨"fire", 1, [0, 0, 1, 1]⟩ ⟨.failed, false, .notConfigured, 20, 20⟩).2.gatePassed = true
    ∧ (processDetApp ⟨10, true, true, true, true, true⟩ (fun _ => none)
        ⟨"fire", 1, [0, 0, 1, 1]⟩ ⟨.failed, false, .notConfigured, 20, 20⟩).2.tgInvoked = false
    ∧ (processDetApp ⟨10, true, true, true, true, true⟩ (fun _ => none)
        ⟨"fire", 1, [0, 0, 1, 1]⟩ ⟨.failed, false, .notConfigured, 20, 20⟩).2.waInvoked = false
    ∧ (processDetApp ⟨10, true, true, true, true, true⟩ (fun _ => none)
        ⟨"fire", 1, [0, 0, 1, 1]⟩ ⟨.failed, false, .notConfigured, 20, 20⟩).2.gateRecorded = false := by
  decide

/-- C1 (amended): the cooldown gate is recorded as fired iff the gate was
passed, persistence succeeded, and no unexpected exception occurred
before the update — independent of the analysis result string and of
the channels' boolean outcomes (which the dispatcher ignores).  When
persistence fails, no channel is contacted, but the gate is NOT marked
fired. -/
theorem gate_fires_iff_try_completes :
    (∀ cfg st det env, (processDetApp cfg st det env).2.gateRecorded =
        ((processDetApp cfg st det env).2.gatePassed
          && env.persist == PersistOutcome.ok && !env.laterRaise))
    ∧ (∀ cfg st det lr ao nc nr,
        (processDetApp cfg st det ⟨PersistOutcome.failed, lr, ao, nc, nr⟩).2.tgInvoked = false
        ∧ (processDetApp cfg st det ⟨PersistOutcome.failed, lr, ao, nc, nr⟩).2.waInvoked = false
        ∧ (processDetApp cfg st det ⟨PersistOutcome.failed, lr, ao, nc, nr⟩).1 = st) := by
  constructor
  · intro cfg st det env
    rcases env with ⟨persist, lr, ao, nc, nr⟩
    cases persist <;> cases lr <;>
      simp only [processDetApp] <;> split <;> rfl
  · intro cfg st det lr ao nc nr
    cases lr <;> simp only [processDetApp] <;> split <;> exact ⟨rfl, rfl, rfl⟩

/- ## C4 -/

/-- C4: `can_send_notification` returns true iff the current time minus
the stored last-alert time for the label (0 when absent) is strictly
greater than the cooldown, and the last-alert-time map changes only
through `update_notification_time` when the gate is recorded — the
check itself leaves the map unchanged. -/
theorem can_send_notification_spec :
    (∀ st l c t, can_send_notification st l c t = true ↔ t - ((st l).getD 0) > c)
    ∧ (∀ cfg st det env, (processDetApp cfg st det env).1 =
        if (processDetApp cfg st det env).2.gateRecorded then
          update_notification_time st (pyLower det.label) env.nowRecord
        else st) := by
  constructor
  · intro st l c t
    simp [can_send_notification]
  · intro cfg st det env
    rcases env with ⟨persist, lr, ao, nc, nr⟩
    cases persist <;> cases lr <;>
      simp only [processDetApp] <;> split <;> rfl

/- ## C6 -/

/-- C6: within one dispatch the WhatsApp send is attempted independently
of anything about the Telegram channel (its enable flag, environment or
boolean result never occur in the equation), and each channel send is a
total boolean function that returns false on failure after its own
internal fallback: Telegram falls back to one text-only message on a
request error, WhatsApp returns false as soon as its single CallMeBot
request fails. -/
theorem channel_isolation_and_send_totality :
    (∀ cfg st det env, (processDetApp cfg st det env).2.waInvoked =
        ((processDetApp cfg st det env).2.gatePassed
          && env.persist == PersistOutcome.ok && !env.laterRaise
          && cfg.enable_whatsapp && cfg.whatsapp_configured))
    ∧ (∀ md env, send_telegram_notification md env =
        (env.token_and_chat &&
          ((if env.image_path.isSome && env.file_present then env.photo_post
            else env.text_post) == PostOutcome.ok
            || ((if env.image_path.isSome && env.file_present then env.photo_post
                  else env.text_post) == PostOutcome.reqErr
                && env.fallback_post == PostOutcome.ok))))
    ∧ (∀ md env, send_whatsapp_notification md env =
        (env.api_key_and_number && env.get_post == PostOutcome.ok)) := by
  refine ⟨?_, ?_, ?_⟩
  · intro cfg st det env
    rcases env with ⟨persist, lr, ao, nc, nr⟩
    cases persist <;> cases lr <;>
      simp only [processDetApp] <;> split <;> rfl
  · intro md env
    rcases env with ⟨tok, ip, fp, il, pp, tp, fb⟩
    cases tok
    · rfl
    · cases hI : ip.isSome && fp <;>
        simp only [send_telegram_notification, hI, Bool.false_eq_true, if_false, if_true,
          Bool.true_and] <;>
        cases pp <;> cases tp <;> cases fb <;> rfl
  · intro md env
    rcases env with ⟨key, ip, fp, il, gp⟩
    cases key
    · rfl
    · cases gp <;> rfl

/- ## C7 -/

theorem removeLoopAux_attempts_le (o : Nat → RmOutcome) :
    ∀ rem idx, (removeLoopAux o idx rem).attempts ≤ idx + rem := by
  intro rem
  induction rem with
  | zero => intro idx; simp [removeLoopAux]
  | succ n ih =>
      intro idx
      have h := ih (idx + 1)
      cases ho : o idx <;> simp [removeLoopAux, ho] <;> omega

theorem removeLoopAux_not_removed (o : Nat → RmOutcome) :
    ∀ rem idx, (removeLoopAux o idx rem).removed = false →
      ((removeLoopAux o idx rem).attempts = idx + rem
        ∧ ∀ j, idx ≤ j → j < idx + rem → o j = RmOutcome.permErr)
      ∨ (∃ j, idx ≤ j ∧ j < idx + rem ∧ o j = RmOutcome.otherErr) := by
  intro rem
  induction rem with
  | zero =>
      intro idx _
      left
      exact ⟨rfl, fun j h1 h2 => absurd h2 (by omega)⟩
  | succ n ih =>
      intro idx hrm
      cases ho : o idx
      · simp [removeLoopAux, ho] at hrm
      · simp only [removeLoopAux, ho] at hrm ⊢
        rcases ih (idx + 1) hrm with ⟨ha, hall⟩ | ⟨j, hj1, hj2, hj3⟩
        · left
          constructor
          · omega
          · intro j h1 h2
            rcases Nat.eq_or_lt_of_le h1 with h | h
            · rw [← h]; exact ho
            · exact hall j h (by omega)
        · right
          exact ⟨j, by omega, by omega, hj3⟩
      · simp only [removeLoopAux, ho] at hrm ⊢
        right
        exact ⟨idx, Nat.le_refl idx, by omega, ho⟩

theorem removeLoopAux_success (o : Nat → RmOutcome) :
    ∀ rem idx i, idx ≤ i → i < idx + rem → o i = RmOutcome.ok →
      (∀ j, idx ≤ j → j < i → o j = RmOutcome.permErr) →
      (removeLoopAux o idx rem).removed = true := by
  intro rem
  induction rem with
  | zero => intro idx i h1 h2 _ _; omega
  | succ n ih =>
      intro idx i h1 h2 hok hperm
      cases ho : o idx
      · simp [removeLoopAux, ho]
      · have hne : idx ≠ i := fun h => by
          rw [h] at ho; rw [hok] at ho; exact RmOutcome.noConfusion ho
        simp only [removeLoopAux, ho]
        exact ih (idx + 1) i (by omega) (by omega) hok
          (fun j hj1 hj2 => hperm j (by omega) hj2)
      · have hne : idx ≠ i := fun h => by
          rw [h] at ho; rw [hok] at ho; exact RmOutcome.noConfusion ho
        have hcontra := hperm idx (Nat.le_refl idx) (by omega)
        rw [ho] at hcontra
        exact RmOutcome.noConfusion hcontra

/-- C7: once the artifact path was captured (persistence succeeded), the
`finally` block attempts its deletion on every exit path of the
dispatch, including the unexpected-exception one; the deletion loop
makes at most `max_retries` `os.remove` calls; a residual file can only
result from `max_retries` consecutive `PermissionError`s or from some
other deletion error (which is logged and abandoned); and when a removal
attempt succeeds within the retry budget after only permission errors,
the file is gone. -/
theorem artifact_removal_bounded_and_total :
    (∀ cfg st det env, (processDetApp cfg st det env).2.removalInvoked =
        ((processDetApp cfg st det env).2.gatePassed && env.persist == PersistOutcome.ok))
    ∧ (∀ env m, (attempt_remove_temp_file env m).attempts ≤ m)
    ∧ (∀ env m, env.path_given = true → env.file_present = true →
        (attempt_remove_temp_file env m).removed = false →
        ((attempt_remove_temp_file env m).attempts = m
          ∧ ∀ j, j < m → env.outcomes j = RmOutcome.permErr)
        ∨ (∃ j, j < m ∧ env.outcomes j = RmOutcome.otherErr))
    ∧ (∀ env m i, env.path_given = true → env.file_present = true →
        i < m → env.outcomes i = RmOutcome.ok →
        (∀ j, j < i → env.outcomes j = RmOutcome.permErr) →
        (attempt_remove_temp_file env m).removed = true) := by
  refine ⟨?_, ?_, ?_, ?_⟩
  · intro cfg st det env
    rcases env with ⟨persist, lr, ao, nc, nr⟩
    cases persist <;> cases lr <;>
      simp only [processDetApp] <;> split <;> rfl
  · intro env m
    rcases env with ⟨pg, fp, o⟩
    cases pg
    · simp [attempt_remove_temp_file]
    · cases fp
      · simp [attempt_remove_temp_file]
      · have h := removeLoopAux_attempts_le o m 0
        simpa [attempt_remove_temp_file] using h
  · intro env m h1 h2 hrm
    simp only [attempt_remove_temp_file, h1, h2] at hrm ⊢
    simp only [Bool.not_true, Bool.or_self, Bool.false_eq_true, if_false] at hrm ⊢
    rcases removeLoopAux_not_removed env.outcomes m 0 hrm with ⟨ha, hall⟩ | ⟨j, hj1, hj2, hj3⟩
    · left
      exact ⟨by omega, fun j hj => hall j (Nat.zero_le j) (by omega)⟩
    · right
      exact ⟨j, by omega, hj3⟩
  · intro env m i h1 h2 him hok hperm
    simp only [attempt_remove_temp_file, h1, h2]
    simp only [Bool.not_true, Bool.or_self, Bool.false_eq_true, if_false]
    exact removeLoopAux_success env.outcomes m 0 i (Nat.zero_le i) (by omega) hok
      (fun j hj1 hj2 => hperm j hj2)

/-- C7 witness: a concrete three-`PermissionError` run makes exactly 3
attempts, all tolerated failures; a first-try success removes the file. -/
theorem artifact_removal_witness :
    ((attempt_remove_temp_file ⟨true, true, fun _ => RmOutcome.permErr⟩ 3).attempts = 3
      ∧ ∀ j, j < 3 → (fun _ => RmOutcome.permErr) j = RmOutcome.permErr)
    ∨ (∃ j, j < 3 ∧ (fun _ => RmOutcome.permErr) j = RmOutcome.otherErr) := by
  have h := artifact_removal_bounded_and_total.2.2.1
    ⟨true, true, fun _ => RmOutcome.permErr⟩ 3 rfl rfl (by decide)
  exact h

/- ## Detector filter lemmas -/

theorem detectFilter_eq_filterMap (cn : List (Nat × String)) (boxes : List RawBox) :
    detectFilter cn boxes = boxes.filterMap (fun box =>
      if pyLower (class_name_of cn box.cls) == "fire"
          || pyLower (class_name_of cn box.cls) == "smoke" then
        some ⟨class_name_of cn box.cls, box.conf, box.xyxy⟩
      else none) := by
  have aux : ∀ (bs : List RawBox) (acc : List Det),
      bs.foldl (fun acc box =>
        let label_raw := class_name_of cn box.cls
        if pyLower label_raw == "fire" || pyLower label_raw == "smoke" then
          acc ++ [{ label := label_raw, confidence := box.conf, bbox := box.xyxy }]
        else acc) acc
      = acc ++ bs.filterMap (fun box =>
          if pyLower (class_name_of cn box.cls) == "fire"
              || pyLower (class_name_of cn box.cls) == "smoke" then
            some ⟨class_name_of cn box.cls, box.conf, box.xyxy⟩
          else none) := by
    intro bs
    induction bs with
    | nil => intro acc; simp
    | cons b tl ih =>
        intro acc
        simp only [List.foldl_cons, List.filterMap_cons]
        by_cases h : (pyLower (class_name_of cn b.cls) == "fire"
            || pyLower (class_name_of cn b.cls) == "smoke") = true
        · simp only [h, if_true, ih]
          simp
        · simp only [h, if_false, ih]
          simp [Bool.not_eq_true] at h
          simp [h]
  simpa [detectFilter] using aux boxes []

theorem mem_detectFilter {cn : List (Nat × String)} {boxes : List RawBox} {d : Det} :
    d ∈ detectFilter cn boxes ↔ ∃ b ∈ boxes,
      (pyLower (class_name_of cn b.cls) = "fire" ∨ pyLower (class_name_of cn b.cls) = "smoke")
      ∧ d = ⟨class_name_of cn b.cls, b.conf, b.xyxy⟩ := by
  rw [detectFilter_eq_filterMap, List.mem_filterMap]
  constructor
  · rintro ⟨b, hb, hf⟩
    by_cases h : (pyLower (class_name_of cn b.cls) == "fire"
        || pyLower (class_name_of cn b.cls) == "smoke") = true
    · rw [if_pos h] at hf
      rcases Bool.or_eq_true_iff.mp h with h1 | h1
      · exact ⟨b, hb, Or.inl (by simpa using h1), (Option.some.inj hf).symm⟩
      · exact ⟨b, hb, Or.inr (by simpa using h1), (Option.some.inj hf).symm⟩
    · rw [if_neg h] at hf
      cases hf
  · rintro ⟨b, hb, hq, rfl⟩
    refine ⟨b, hb, ?_⟩
    rw [if_pos ?_]
    apply Bool.or_eq_true_iff.mpr
    rcases hq with h1 | h1
    · exact Or.inl (by simpa using h1)
    · exact Or.inr (by simpa using h1)

theorem detect_fst_cases (mdl : Bool) (cn : List (Nat × String)) (f : PyFrame)
    (env : PredictEnv) :
    (detect mdl cn f env).1 = [] ∨
    ∃ boxes rest, env.results_list = boxes :: rest
      ∧ (detect mdl cn f env).1 = detectFilter cn boxes := by
  rcases f with ⟨shape, pix⟩
  rcases env with ⟨rl, pr⟩
  cases mdl
  · left; rfl
  · rcases shape with _ | ⟨a, _ | ⟨b, _ | ⟨c, _ | ⟨d, tl⟩⟩⟩⟩
    · left; rfl
    · left; rfl
    · cases rl with
      | nil => left; rfl
      | cons boxes rest => right; exact ⟨boxes, rest, rfl, rfl⟩
    · by_cases h4 : c = 4
      · subst h4
        cases rl with
        | nil => left; rfl
        | cons boxes rest => right; exact ⟨boxes, rest, rfl, rfl⟩
      · by_cases h3 : c = 3
        · subst h3
          cases rl with
          | nil => left; rfl
          | cons boxes rest => right; exact ⟨boxes, rest, rfl, rfl⟩
        · left
          have e4 : (c == 4) = false := by simpa using h4
          have e3 : (c == 3) = false := by simpa using h3
          simp [detect, e4, e3]
    · left; rfl

/- ## C5 -/

/-- C5: only `fire`/`smoke` can dispatch: every detection the detector
returns has a lower-cased label in that set (the filter of
`YoloDetector.detect`), and in `process_frame_and_notify` a detection
whose lower-cased label is outside the set never consults the cooldown
gate, never invokes the analyzer or a channel, never records the gate,
and leaves the last-alert-time map unchanged. -/
theorem nonqualifying_labels_never_dispatch :
    (∀ cn boxes d, d ∈ detectFilter cn boxes →
      pyLower d.label = "fire" ∨ pyLower d.label = "smoke")
    ∧ (∀ mdl cn f env d, d ∈ (detect mdl cn f env).1 →
      pyLower d.label = "fire" ∨ pyLower d.label = "smoke")
    ∧ (∀ cfg st det env, pyLower det.label ≠ "fire" → pyLower det.label ≠ "smoke" →
        (processDetApp cfg st det env).2
          = ⟨false, false, false, false, false, false, false⟩
        ∧ (processDetApp cfg st det env).1 = st) := by
  have hfilter : ∀ cn boxes (d : Det), d ∈ detectFilter cn boxes →
      pyLower d.label = "fire" ∨ pyLower d.label = "smoke" := by
    intro cn boxes d hd
    rcases mem_detectFilter.mp hd with ⟨b, _, hq, rfl⟩
    exact hq
  refine ⟨hfilter, ?_, ?_⟩
  · intro mdl cn f env d hd
    rcases detect_fst_cases mdl cn f env with h | ⟨boxes, rest, _, h⟩
    · rw [h] at hd; cases hd
    · rw [h] at hd; exact hfilter cn boxes d hd
  · intro cfg st det env h1 h2
    have hq : (pyLower det.label == "fire" || pyLower det.label == "smoke") = false := by
      simp [h1, h2]
    simp [processDetApp, hq]

/-- C5 witness: a `person` detection produces no gate check, no analyzer
call, no channel call and no state change; and a concrete filtered
detection does carry a qualifying label. -/
theorem nonqualifying_labels_witness :
    ((processDetApp ⟨10, true, true, true, true, true⟩ (fun _ => none)
        ⟨"Person", 1, [0, 0, 1, 1]⟩ ⟨.ok, false, .notConfigured, 20, 20⟩).2
      = ⟨false, false, false, false, false, false, false⟩)
    ∧ (pyLower (Det.label ⟨"fire", 1, [0, 0, 1, 1]⟩) = "fire"
        ∨ pyLower (Det.label ⟨"fire", 1, [0, 0, 1, 1]⟩) = "smoke") :=
  ⟨(nonqualifying_labels_never_dispatch.2.2 ⟨10, true, true, true, true, true⟩
      (fun _ => none) ⟨"Person", 1, [0, 0, 1, 1]⟩ ⟨.ok, false, .notConfigured, 20, 20⟩
      (by decide) (by decide)).1,
   nonqualifying_labels_never_dispatch.1 [(0, "fire")] [⟨0, 1, [0, 0, 1, 1]⟩]
      ⟨"fire", 1, [0, 0, 1, 1]⟩ (by decide)⟩

/- ## C8 -/

/-- C8: `detect` normalises grayscale `(h, w)` and 4-channel `(h, w, 4)`
frames to 3-channel `(h, w, 3)` before inference and accepts `(h, w, 3)`
unchanged; it returns an empty detection list (it is a total function,
so it never raises) whenever no box qualifies; with the model unloaded
or with an input shape it cannot process it returns the original input
frame unannotated together with an empty list. -/
theorem detect_shape_tolerance :
    (∀ cn f env, supportedShape f.shape = false → detect true cn f env = ([], f))
    ∧ (∀ cn f env, detect false cn f env = ([], f))
    ∧ (∀ cn h w p env, env.results_list = [] →
        detect true cn ⟨[h, w], p⟩ env = ([], ⟨[h, w, 3], p⟩)
        ∧ detect true cn ⟨[h, w, 4], p⟩ env = ([], ⟨[h, w, 3], p⟩)
        ∧ detect true cn ⟨[h, w, 3], p⟩ env = ([], ⟨[h, w, 3], p⟩))
    ∧ (∀ cn f env boxes rest, env.results_list = boxes :: rest →
        (∀ b ∈ boxes, pyLower (class_name_of cn b.cls) ≠ "fire"
          ∧ pyLower (class_name_of cn b.cls) ≠ "smoke") →
        (detect true cn f env).1 = []) := by
  refine ⟨?_, ?_, ?_, ?_⟩
  · intro cn f env hsf
    rcases f with ⟨shape, pix⟩
    rcases shape with _ | ⟨a, _ | ⟨b, _ | ⟨c, _ | ⟨d, tl⟩⟩⟩⟩
    · simp [detect]
    · simp [detect]
    · simp [supportedShape] at hsf
    · simp only [supportedShape] at hsf
      rcases Bool.or_eq_false_iff.mp hsf with ⟨h3, h4⟩
      simp [detect, h3, h4]
    · simp [detect]
  · intro cn f env
    simp [detect]
  · intro cn h w p env hrl
    refine ⟨?_, ?_, ?_⟩ <;> simp [detect, cvtGray2BGR, cvtBGRA2BGR, hrl]
  · intro cn f env boxes rest hrl hnq
    rcases detect_fst_cases true cn f env with h | ⟨boxes2, rest2, heq, h⟩
    · exact h
    · rw [hrl] at heq
      cases heq
      rw [h, detectFilter_eq_filterMap]
      apply List.filterMap_eq_nil.mpr
      intro b hb
      rw [if_neg]
      simp only [Bool.or_eq_true, beq_iff_eq, not_or]
      exact ⟨(hnq b hb).1, (hnq b hb).2⟩

/-- C8 witness: an unsupported `(2, 2, 5)` frame comes back unannotated
with an empty list; a grayscale `(2, 2)` frame is normalised to
`(2, 2, 3)`; a frame whose only box is a `person` yields an empty
detection list. -/
theorem detect_shape_witness :
    detect true [(0, "fire")] ⟨[2, 2, 5], 0⟩ ⟨[], none⟩ = ([], ⟨[2, 2, 5], 0⟩)
    ∧ detect true [(0, "fire")] ⟨[2, 2], 0⟩ ⟨[], none⟩ = ([], ⟨[2, 2, 3], 0⟩)
    ∧ (detect true [(0, "person")] ⟨[2, 2, 3], 0⟩ ⟨[[⟨0, 1, [0, 0, 1, 1]⟩]], none⟩).1 = [] :=
  ⟨detect_shape_tolerance.1 [(0, "fire")] ⟨[2, 2, 5], 0⟩ ⟨[], none⟩ (by decide),
   (detect_shape_tolerance.2.2.1 [(0, "fire")] 2 2 0 ⟨[], none⟩ rfl).1,
   detect_shape_tolerance.2.2.2 [(0, "person")] ⟨[2, 2, 3], 0⟩
     ⟨[[⟨0, 1, [0, 0, 1, 1]⟩]], none⟩ [⟨0, 1, [0, 0, 1, 1]⟩] [] rfl (by decide)⟩

/- ## C9 -/

/-- C9 counterexample: with the model class map `{0: "Fire"}` the
detection list of `detect` carries the label `"Fire"` verbatim, which is
not lower-case — `detect` filters on the lower-cased name but stores
`label_raw` unchanged. -/
theorem detect_label_not_lowercased_cex :
    (detect true [(0, "Fire")] ⟨[4, 4, 3], 0⟩
        ⟨[[⟨0, 1, [0, 0, 1, 1]⟩]], none⟩).1.map Det.label = ["Fire"]
    ∧ pyLower "Fire" ≠ "Fire" := by
  decide

/-- C9 (amended): every detection returned by the detector has a label
that qualifies after lower-casing (`label.lower() ∈ {fire, smoke}`) and
is the verbatim — not necessarily lower-case — detector class name; the
callers lower-case it before use. -/
theorem detect_labels_qualify_verbatim :
    ∀ cn boxes d, d ∈ detectFilter cn boxes →
      (pyLower d.label = "fire" ∨ pyLower d.label = "smoke")
      ∧ ∃ b ∈ boxes, d.label = class_name_of cn b.cls
        ∧ d.confidence = b.conf ∧ d.bbox = b.xyxy := by
  intro cn boxes d hd
  rcases mem_detectFilter.mp hd with ⟨b, hb, hq, rfl⟩
  exact ⟨hq, b, hb, rfl, rfl, rfl⟩

/-- C9 witness: the `"Fire"` class name passes the filter and is stored
verbatim. -/
theorem detect_labels_witness :
    (pyLower (Det.label ⟨"Fire", 1, [0, 0, 1, 1]⟩) = "fire"
      ∨ pyLower (Det.label ⟨"Fire", 1, [0, 0, 1, 1]⟩) = "smoke")
    ∧ ∃ b ∈ [(⟨0, 1, [0, 0, 1, 1]⟩ : RawBox)],
        Det.label ⟨"Fire", 1, [0, 0, 1, 1]⟩ = class_name_of [(0, "Fire")] b.cls
        ∧ Det.confidence ⟨"Fire", 1, [0, 0, 1, 1]⟩ = b.conf
        ∧ Det.bbox ⟨"Fire", 1, [0, 0, 1, 1]⟩ = b.xyxy :=
  detect_labels_qualify_verbatim [(0, "Fire")] [⟨0, 1, [0, 0, 1, 1]⟩]
    ⟨"Fire", 1, [0, 0, 1, 1]⟩ (by decide)

/- ## C2 -/

theorem stepCli_gate_fail (cfg : CliCfg) (st : LastTimes) (e : CliEvent)
    (h : can_send_notification st e.label cfg.cooldown e.time = false) :
    stepCli cfg st e = (st, ⟨true, false, false, false, false, false, false⟩) := by
  unfold stepCli
  rw [h]
  rfl

theorem stepCli_recorded_state (cfg : CliCfg) (st : LastTimes) (e : CliEvent)
    (h : (stepCli cfg st e).2.gateRecorded = true) :
    (stepCli cfg st e).1 = update_notification_time st e.label e.time := by
  rcases e with ⟨label, time, persist, lr⟩
  simp only [stepCli] at h ⊢
  by_cases hc : can_send_notification st label cfg.cooldown time = true
  · rw [if_pos hc] at h ⊢
    cases persist
    · cases lr
      · rfl
      · simp at h
    · simp at h
  · rw [if_neg hc] at h
    simp at h

theorem stepCli_channels_recorded (cfg : CliCfg) (st : LastTimes) (e : CliEvent)
    (h : (stepCli cfg st e).2.tgInvoked = true ∨ (stepCli cfg st e).2.waInvoked = true) :
    (stepCli cfg st e).2.gateRecorded = true := by
  rcases e with ⟨label, time, persist, lr⟩
  simp only [stepCli] at h ⊢
  by_cases hc : can_send_notification st label cfg.cooldown time = true
  · rw [if_pos hc] at h ⊢
    cases persist
    · cases lr
      · rfl
      · simp at h
    · simp at h
  · rw [if_neg hc] at h
    simp at h

theorem stepCli_lookup (cfg : CliCfg) (st : LastTimes) (e : CliEvent) (L : String) :
    ((stepCli cfg st e).1) L = st L ∨ ((stepCli cfg st e).1) L = some e.time := by
  rcases e with ⟨label, time, persist, lr⟩
  simp only [stepCli]
  by_cases hc : can_send_notification st label cfg.cooldown time = true
  · rw [if_pos hc]
    cases persist
    · cases lr
      · by_cases hL : L = label
        · right; simp [update_notification_time, hL]
        · left; simp [update_notification_time, hL]
      · left; rfl
    · left; rfl
  · rw [if_neg hc]
    left; rfl

theorem runCli_lookup_ge (cfg : CliCfg) (evs : List CliEvent) (t0 : ℤ) :
    ∀ st L, (∃ v, st L = some v ∧ t0 ≤ v) → (∀ e ∈ evs, t0 ≤ e.time) →
      ∃ v, (runCli cfg st evs) L = some v ∧ t0 ≤ v := by
  induction evs with
  | nil => intro st L h _; simpa [runCli] using h
  | cons e tl ih =>
      intro st L h hall
      have hrun : runCli cfg st (e :: tl) = runCli cfg ((stepCli cfg st e).1) tl := rfl
      rw [hrun]
      apply ih
      · rcases stepCli_lookup cfg st e L with h1 | h1
        · rcases h with ⟨v, hv, ht⟩
          exact ⟨v, by rw [h1, hv], ht⟩
        · exact ⟨e.time, h1, hall e (List.mem_cons_self e tl)⟩
      · exact fun x hx => hall x (List.mem_cons_of_mem e hx)

/-- C2 counterexample: two gate-passing dispatch attempts for `fire` at
times 20 and 21 with cooldown 10: the first attempt's persistence fails,
so the gate is never recorded, and the second attempt — only 1 second
later, well inside the cooldown — passes the gate again and invokes the
Telegram channel, contradicting the claim as stated over all dispatch
attempts. -/
theorem cooldown_claim_cex :
    (stepCli ⟨10, true, true, false⟩ (fun _ => none)
        ⟨"fire", 20, .failed, false⟩).2.gatePassed = true
    ∧ (stepCli ⟨10, true, true, false⟩
        (stepCli ⟨10, true, true, false⟩ (fun _ => none) ⟨"fire", 20, .failed, false⟩).1
        ⟨"fire", 21, .ok, false⟩).2.gatePassed = true
    ∧ (stepCli ⟨10, true, true, false⟩
        (stepCli ⟨10, true, true, false⟩ (fun _ => none) ⟨"fire", 20, .failed, false⟩).1
        ⟨"fire", 21, .ok, false⟩).2.tgInvoked = true
    ∧ ((21 : ℤ) - 20 ≤ 10) := by
  decide

/-- C2 (amended): restrict the earlier attempt to one whose dispatch
recorded the cooldown gate (equivalently, by the second conjunct, to any
attempt that invoked a notification channel): then any later dispatch
attempt for the same label within `cooldown_seconds` of the earlier
attempt's start time fails the gate and invokes no notification channel,
no matter what happens in between. -/
theorem cooldown_spacing_invariant :
    (∀ (cfg : CliCfg) (st0 : LastTimes) (pre : List CliEvent) (e1 : CliEvent)
        (mid : List CliEvent) (e2 : CliEvent),
      (∀ e ∈ mid, e1.time ≤ e.time) →
      (stepCli cfg (runCli cfg st0 pre) e1).2.gateRecorded = true →
      e2.label = e1.label →
      e2.time - e1.time ≤ cfg.cooldown →
      (stepCli cfg (runCli cfg (stepCli cfg (runCli cfg st0 pre) e1).1 mid) e2).2
        = ⟨true, false, false, false, false, false, false⟩)
    ∧ (∀ (cfg : CliCfg) (st : LastTimes) (e : CliEvent),
        ((stepCli cfg st e).2.tgInvoked = true ∨ (stepCli cfg st e).2.waInvoked = true) →
        (stepCli cfg st e).2.gateRecorded = true) := by
  constructor
  · intro cfg st0 pre e1 mid e2 hmono hrec hlabel hclose
    have hstate : (stepCli cfg (runCli cfg st0 pre) e1).1
        = update_notification_time (runCli cfg st0 pre) e1.label e1.time :=
      stepCli_recorded_state cfg (runCli cfg st0 pre) e1 hrec
    have hlk : ∃ v, (runCli cfg (stepCli cfg (runCli cfg st0 pre) e1).1 mid) e1.label = some v
        ∧ e1.time ≤ v := by
      apply runCli_lookup_ge cfg mid e1.time
      · rw [hstate]
        exact ⟨e1.time, by simp [update_notification_time], le_refl e1.time⟩
      · exact hmono
    obtain ⟨v, hv, htv⟩ := hlk
    have hgate : can_send_notification
        (runCli cfg (stepCli cfg (runCli cfg st0 pre) e1).1 mid) e2.label cfg.cooldown e2.time
        = false := by
      rw [hlabel]
      simp only [can_send_notification, hv, Option.getD_some]
      simp only [decide_eq_false_iff_not, not_lt]
      omega
    have hfail := stepCli_gate_fail cfg
      (runCli cfg (stepCli cfg (runCli cfg st0 pre) e1).1 mid) e2 hgate
    rw [hfail]
  · exact stepCli_channels_recorded

/-- C2 witness: gate recorded at time 20 for `fire`; an attempt at time
25 with cooldown 10 fails the gate and contacts no channel. -/
theorem cooldown_spacing_witness :
    (stepCli ⟨10, true, true, false⟩
      (runCli ⟨10, true, true, false⟩
        (stepCli ⟨10, true, true, false⟩
          (runCli ⟨10, true, true, false⟩ (fun _ => none) []) ⟨"fire", 20, .ok, false⟩).1 [])
      ⟨"fire", 25, .ok, false⟩).2 = ⟨true, false, false, false, false, false, false⟩ :=
  cooldown_spacing_invariant.1 ⟨10, true, true, false⟩ (fun _ => none) [] ⟨"fire", 20, .ok, false⟩
    [] ⟨"fire", 25, .ok, false⟩ (by simp) (by decide) rfl (by decide)

end DetectorX
